import Mathlib

/-!
Shallow embedding of `src/main.py` (a GitHub Actions runner autoscaler for
OpenStack) and proofs about its behaviour.

The Python program reacts to `workflow_job` webhook events and runs a
periodic reconciliation tick (`maintain_min_ready`).  External systems
(GitHub API, OpenStack compute) are modelled by an `Env` record of oracles:
each external call is an entry of the `Effect` trace the embedded functions
return, and its outcome (`Except`) is drawn from the oracle.  A Python
exception is modelled as an `Except.error` that the callers propagate
exactly where the Python code would let it propagate.
-/

namespace GhaOpenstack

/-- A self-hosted runner record from the GitHub API
(`github.SelfHostedActionsRunner`): id, name, busy flag and label names
(`runner.labels()` in the source yields objects whose `"name"` field is the
label; we model the list of label names directly). -/
structure Runner where
  id : Nat
  name : String
  busy : Bool
  labels : List String
deriving DecidableEq

/-- An OpenStack compute server as far as `main.py` inspects it: only the
`name` attribute is ever read. -/
structure Server where
  name : String
deriving DecidableEq

/-- The `pool["runner"]` sub-dictionary of a pool config entry. -/
structure RunnerSpec where
  label : String
  group : Nat
deriving DecidableEq

/-- The `pool["instance"]` sub-dictionary of a pool config entry. -/
structure InstanceSpec where
  image : String
  flavor : String
  network : String
  key_name : Option String
deriving DecidableEq

/-- A pool entry of `CFG["pools"]`.  `min_ready` is an integer: the Python
subtraction `pool["min_ready"] - len(idle_runners)` may be negative, which
the source compares with `> 0`. -/
structure Pool where
  runner : RunnerSpec
  inst : InstanceSpec
  min_ready : Int
deriving DecidableEq

/-- One `write_files` entry of the cloud-config document built by
`generate_cloud_config_with_jitconfig`. -/
structure WriteFile where
  path : String
  content : String
  permissions : String
deriving DecidableEq

/-- The structured cloud-config document (`cloud_config` dict in the
source).  The final `yaml.dump` serialisation and the `#cloud-config\n`
header are performed by the external yaml library and are not modelled. -/
structure CloudConfig where
  write_files : List WriteFile
  runcmd : List String
deriving DecidableEq

/-- `generate_cloud_config_with_jitconfig` from `main.py`: one
`write_files` entry placing `scripts/start.sh` at `/start.sh` with the
literal marker `___JIT_CONFIG___` replaced by the registration token, and
one `runcmd` entry executing `/start.sh`.  The content of
`scripts/start.sh` is outside the embedded core, so it is the parameter
`startScript`; `String.replace` replaces every occurrence, as Python
`str.replace` does. -/
def generate_cloud_config_with_jitconfig (startScript : String) (jitconfig : String) :
    CloudConfig :=
  { write_files := [{ path := "/start.sh",
                      content := startScript.replace "___JIT_CONFIG___" jitconfig,
                      permissions := "0755" }],
    runcmd := ["/start.sh"] }

/-- The argument accepted by the monkey-patched
`Organization.remove_self_hosted_runner`: a runner record, a Python `int`,
or anything else (which trips the `assert`). -/
inductive RunnerArg where
  | runner (r : Runner)
  | intId (i : Nat)
  | other (descr : String)
deriving DecidableEq

/-- `remove_self_hosted_runner` from `main.py`.  `deleteStatus id` models
the HTTP status returned by `self._requester.requestJson("DELETE", url +
str(id))`.  A runner record is reduced to its `id`; a non-record,
non-`int` argument raises `AssertionError` (modelled as `Except.error`);
otherwise the method returns the boolean `status == 204`. -/
def remove_self_hosted_runner (deleteStatus : Nat → Nat) : RunnerArg → Except String Bool
  | .runner r => .ok (deleteStatus r.id == 204)
  | .intId i => .ok (deleteStatus i == 204)
  | .other descr => .error ("AssertionError: " ++ descr)

/-- Python `s.name.startswith("gha-")`, the reserved-name check used by the
GC pass.  Stated over `String.data` so that the kernel can evaluate it on
concrete names (byte-level `String.startsWith` does not reduce). -/
def has_reserved_name (s : String) : Bool := "gha-".data.isPrefixOf s.data

/-- The `servers` snapshot of the GC pass: `[s for s in
CLOUD.compute.servers() if s.name.startswith("gha-")]`. -/
def gha_servers (servers : List Server) : List Server :=
  servers.filter (fun s => has_reserved_name s.name)

/-- The servers deleted by the first GC loop of `maintain_min_ready`:
reserved-name servers whose name is not among `runner_names`. -/
def gc_deleted_servers (servers : List Server) (runners : List Runner) : List Server :=
  (gha_servers servers).filter (fun s => !(decide (s.name ∈ runners.map Runner.name)))

/-- The runners deleted by the second GC loop of `maintain_min_ready`:
runners whose name is not among `server_names` (the names of the
reserved-name server snapshot). -/
def gc_deleted_runners (servers : List Server) (runners : List Runner) : List Runner :=
  runners.filter (fun r => !(decide (r.name ∈ (gha_servers servers).map Server.name)))

/-- The external state after one GC pass, assuming every deletion request
succeeds: both inventories minus the entities the pass deleted. -/
def gc_apply (servers : List Server) (runners : List Runner) :
    List Server × List Runner :=
  (servers.filter (fun s => !(decide (s ∈ gc_deleted_servers servers runners))),
   runners.filter (fun r => !(decide (r ∈ gc_deleted_runners servers runners))))

/-- One observable external call of the program.  `log` is an
`app.logger.info` line; the others are requests to GitHub or OpenStack.
An effect is recorded when the call is issued, whether or not it then
fails. -/
inductive Effect where
  | log (msg : String)
  | generateJitconfig (org : String) (name : String) (group : Nat) (labels : List String)
  | createServer (name : String) (image : String) (flavor : String) (network : String)
      (key : Option String) (userdata : CloudConfig)
  | deleteServer (target : String)
  | removeRunner (id : Nat)
deriving DecidableEq

/-- The configuration plus oracles for every external system.  `suffix i`
models the randomized 5-lowercase-letter suffix drawn by the i-th
`generate_name()` call of the run; the `jitconfig`, `createServer`,
`deleteServer` and `removeRunner` oracles give the outcome of the
corresponding API call (`Except.error` models a raised exception, e.g. an
HTTP error from `raise_for_status` or an OpenStack SDK failure/timeout);
`runners` and `servers` are the point-in-time snapshots the tick reads. -/
structure Env where
  org : String
  pools : List Pool
  runners : List Runner
  servers : List Server
  startScript : String
  suffix : Nat → String
  jitconfig : String → Except String String
  createServer : String → Except String Unit
  deleteServer : String → Except String Unit
  removeRunner : Nat → Except String Unit

/-- `generate_name` from `main.py`: `"gha-" + suffix`, the suffix being 5
random lowercase letters (randomness modelled by the oracle `env.suffix`
applied to the call index). -/
def generate_name (env : Env) (i : Nat) : String := "gha-" ++ env.suffix i

/-- `generate_jitconfig_for_organization` from `main.py`: an HTTP POST to
the GitHub JIT-config endpoint.  The request itself is the recorded
effect; `response.raise_for_status()` turns an HTTP failure into an
exception (`Except.error`), otherwise the encoded JIT config is
returned. -/
def generate_jitconfig_for_organization (env : Env) (org : String) (name : String)
    (group : Nat) (labels : List String) : List Effect × Except String String :=
  ([Effect.generateJitconfig org name group labels], env.jitconfig name)

/-- `scale_up` from `main.py` for the `i`-th generated name: log, generate
a name, request a JIT config (aborting on failure), build the cloud-config
and request server creation with `wait=True, timeout=300` (an effect is
recorded for the attempt even when creation fails or times out, since the
request was issued). -/
def scale_up (env : Env) (pool : Pool) (i : Nat) : List Effect × Except String Unit :=
  let name := generate_name env i
  let (tJit, rJit) := generate_jitconfig_for_organization env env.org name
    pool.runner.group [pool.runner.label]
  match rJit with
  | .error e => (Effect.log "Scaling up" :: tJit, .error e)
  | .ok tok =>
    let cloudInit := generate_cloud_config_with_jitconfig env.startScript tok
    let create := Effect.createServer name pool.inst.image pool.inst.flavor
      pool.inst.network pool.inst.key_name cloudInit
    match env.createServer name with
    | .error e => (Effect.log "Scaling up" :: tJit ++ [create], .error e)
    | .ok _ =>
      (Effect.log "Scaling up" :: tJit ++ [create, Effect.log ("Created server " ++ name)],
       .ok ())

/-- The `for pool in CFG["pools"]` loop of the `queued` branch of
`on_workflow_job`: call `scale_up` on the first pool whose label is in the
job's label list and return; scan no further pools; no-op when no pool
matches. -/
def dispatch_queued (env : Env) (labels : List String) :
    List Pool → List Effect × Except String Unit
  | [] => ([], .ok ())
  | p :: rest =>
    if p.runner.label ∈ labels then scale_up env p 0
    else dispatch_queued env labels rest

/-- A `workflow_job` webhook payload as far as `on_workflow_job` reads it:
`data["organization"]["login"]`, `data["action"]`,
`data["workflow_job"]["labels"]` and `data["workflow_job"]["runner_name"]`. -/
structure WorkflowJobEvent where
  org : String
  action : String
  labels : List String
  runner_name : String
deriving DecidableEq

/-- `on_workflow_job` from `main.py`.  Events for another organization are
ignored.  On `"queued"` the first matching pool is scaled up synchronously
(inside this very call), and an exception from `scale_up` propagates out
of the handler.  On `"completed"` the handler logs and issues
`CLOUD.compute.delete_server(runner_name)` with no exception handling, so
a failing delete propagates too. -/
def on_workflow_job (env : Env) (e : WorkflowJobEvent) :
    List Effect × Except String Unit :=
  if e.org ≠ env.org then ([], .ok ())
  else
    let queued :=
      if e.action = "queued" then dispatch_queued env e.labels env.pools
      else ([], .ok ())
    match queued.2 with
    | .error err => (queued.1, .error err)
    | .ok _ =>
      if e.action = "completed" then
        let t2 := [Effect.log ("Deleting runner " ++ e.runner_name),
                   Effect.deleteServer e.runner_name]
        match env.deleteServer e.runner_name with
        | .error err => (queued.1 ++ t2, .error err)
        | .ok _ => (queued.1 ++ t2, .ok ())
      else (queued.1, .ok ())

/-- `get_runners_by_label` from `main.py`: the organization's runners
filtered to those carrying the given label. -/
def get_runners_by_label (runners : List Runner) (label : String) : List Runner :=
  runners.filter (fun r => label ∈ r.labels)

/-- The `runner.busy is False` filter of `maintain_min_ready_for_pool`. -/
def idle_runners_of (runners : List Runner) : List Runner :=
  runners.filter (fun r => r.busy == false)

/-- The scale-up batch of one pool: `nodes_to_create` calls of
`executor.submit(scale_up, pool)` on a `ThreadPoolExecutor(max_workers=4)`.
All submitted tasks run to completion — leaving the `with` block calls
`executor.shutdown(wait=True)`, which neither cancels pending futures nor
interrupts running ones — so the trace is the concatenation of every
task's trace (one linearisation of the interleaving).  `future.result()`
inside `as_completed` re-raises the first exception, modelled as the first
`Except.error` among the task results. -/
def run_batch (env : Env) (pool : Pool) (n : Nat) : List Effect × Except String Unit :=
  let results := (List.range n).map (fun i => scale_up env pool i)
  ((results.map Prod.fst).flatten,
   match results.findSome? (fun r => match r.2 with | .error e => some e | .ok _ => none) with
   | some e => .error e
   | none => .ok ())

/-- `maintain_min_ready_for_pool` from `main.py`: read the pool's runners,
count the idle ones, compute `nodes_to_create = min_ready - len(idle)` and,
when positive, run a batch of that many `scale_up` tasks. -/
def maintain_min_ready_for_pool (env : Env) (pool : Pool) :
    List Effect × Except String Unit :=
  let runners := get_runners_by_label env.runners pool.runner.label
  let idle := idle_runners_of runners
  let headLog := Effect.log (pool.runner.label ++ ": Found " ++ toString runners.length
    ++ " runners, " ++ toString idle.length ++ " idle runners, min_ready="
    ++ toString pool.min_ready)
  let nodes_to_create : Int := pool.min_ready - idle.length
  if nodes_to_create > 0 then
    (headLog :: Effect.log ("Scaling up " ++ toString nodes_to_create ++ " nodes")
       :: (run_batch env pool nodes_to_create.toNat).1,
     (run_batch env pool nodes_to_create.toNat).2)
  else ([headLog], .ok ())

/-- The `for pool in CFG["pools"]` loop at the head of
`maintain_min_ready`: pools are processed in configured order, and an
exception from one pool's maintenance propagates, skipping the remaining
pools. -/
def run_pools (env : Env) : List Pool → List Effect × Except String Unit
  | [] => ([], .ok ())
  | p :: rest =>
    match (maintain_min_ready_for_pool env p).2 with
    | .error e => ((maintain_min_ready_for_pool env p).1, .error e)
    | .ok _ =>
      ((maintain_min_ready_for_pool env p).1 ++ (run_pools env rest).1,
       (run_pools env rest).2)

/-- The first GC loop of `maintain_min_ready`: delete every reserved-name
server whose name is not among `runner_names`; an exception from
`delete_server` propagates and aborts the rest of the loop. -/
def delete_orphan_servers (env : Env) (runnerNames : List String) :
    List Server → List Effect × Except String Unit
  | [] => ([], .ok ())
  | s :: rest =>
    if s.name ∈ runnerNames then delete_orphan_servers env runnerNames rest
    else
      let t := [Effect.log ("Deleting server " ++ s.name), Effect.deleteServer s.name]
      match env.deleteServer s.name with
      | .error e => (t, .error e)
      | .ok _ =>
        (t ++ (delete_orphan_servers env runnerNames rest).1,
         (delete_orphan_servers env runnerNames rest).2)

/-- The second GC loop of `maintain_min_ready`: delete (by id, through the
patched `remove_self_hosted_runner`) every runner whose name is not among
`server_names`. -/
def delete_orphan_runners (env : Env) (serverNames : List String) :
    List Runner → List Effect × Except String Unit
  | [] => ([], .ok ())
  | r :: rest =>
    if r.name ∈ serverNames then delete_orphan_runners env serverNames rest
    else
      let t := [Effect.log ("Deleting runner " ++ r.name), Effect.removeRunner r.id]
      match env.removeRunner r.id with
      | .error e => (t, .error e)
      | .ok _ =>
        (t ++ (delete_orphan_runners env serverNames rest).1,
         (delete_orphan_runners env serverNames rest).2)

/-- The orphan-GC tail of `maintain_min_ready`: take the reserved-name
server snapshot and the organization runner snapshot, run the two
deletion loops. -/
def gc_pass (env : Env) : List Effect × Except String Unit :=
  let servers := gha_servers env.servers
  let runners := env.runners
  match (delete_orphan_servers env (runners.map Runner.name) servers).2 with
  | .error e => ((delete_orphan_servers env (runners.map Runner.name) servers).1, .error e)
  | .ok _ =>
    ((delete_orphan_servers env (runners.map Runner.name) servers).1
       ++ (delete_orphan_runners env (servers.map Server.name) runners).1,
     (delete_orphan_runners env (servers.map Server.name) runners).2)

/-- `maintain_min_ready` from `main.py`, one reconciliation tick: maintain
every pool in order, then run the GC pass.  An exception anywhere
propagates out of the scheduler job, so a failing pool skips both the
remaining pools and the GC pass. -/
def maintain_min_ready (env : Env) : List Effect × Except String Unit :=
  match (run_pools env env.pools).2 with
  | .error e => ((run_pools env env.pools).1, .error e)
  | .ok _ => ((run_pools env env.pools).1 ++ (gc_pass env).1, (gc_pass env).2)

/-- `max_workers=4`, the bound of the `ThreadPoolExecutor` built in
`maintain_min_ready_for_pool`. -/
def MAX_WORKERS : Nat := 4

/-- Scheduler state of one scale-up batch on the thread pool: how many
submitted tasks have not started, are running on a worker thread, and have
finished. -/
structure ExecState where
  pending : Nat
  running : Nat
  done : Nat
deriving DecidableEq

/-- Small-step semantics of `ThreadPoolExecutor(max_workers=w)` on one
batch: a pending task may start only while fewer than `w` tasks are in
flight, and a running task may finish. -/
inductive ExecStep (w : Nat) : ExecState → ExecState → Prop where
  | start (p r d : Nat) : r < w → ExecStep w ⟨p + 1, r, d⟩ ⟨p, r + 1, d⟩
  | finish (p r d : Nat) : ExecStep w ⟨p, r + 1, d⟩ ⟨p, r, d + 1⟩

/-- Reachability of executor states from the batch's initial state
(`n` submitted tasks, none started). -/
def ExecReachable (w n : Nat) (s : ExecState) : Prop :=
  Relation.ReflTransGen (ExecStep w) ⟨n, 0, 0⟩ s

/-! ## Helper lemmas about the GC pass -/

lemma mem_gha_servers {sv : List Server} {s : Server} :
    s ∈ gha_servers sv ↔ s ∈ sv ∧ has_reserved_name s.name = true := by
  simp [gha_servers]

lemma mem_gc_deleted_servers {sv : List Server} {rn : List Runner} {s : Server} :
    s ∈ gc_deleted_servers sv rn ↔
      s ∈ sv ∧ has_reserved_name s.name = true ∧ ¬ s.name ∈ rn.map Runner.name := by
  simp [gc_deleted_servers, List.mem_filter, mem_gha_servers, and_assoc]

lemma mem_gc_deleted_runners {sv : List Server} {rn : List Runner} {r : Runner} :
    r ∈ gc_deleted_runners sv rn ↔
      r ∈ rn ∧ ¬ r.name ∈ (gha_servers sv).map Server.name := by
  simp [gc_deleted_runners, List.mem_filter]

lemma mem_gc_apply_fst {sv : List Server} {rn : List Runner} {s : Server} :
    s ∈ (gc_apply sv rn).1 ↔
      s ∈ sv ∧ (has_reserved_name s.name = true → s.name ∈ rn.map Runner.name) := by
  simp only [gc_apply, List.mem_filter, Bool.not_eq_true', decide_eq_false_iff_not,
    mem_gc_deleted_servers]
  constructor
  · rintro ⟨hsv, hnd⟩
    refine ⟨hsv, fun htag => ?_⟩
    by_contra hn
    exact hnd ⟨hsv, htag, hn⟩
  · rintro ⟨hsv, himp⟩
    exact ⟨hsv, fun hdel => hdel.2.2 (himp hdel.2.1)⟩

lemma mem_gc_apply_snd {sv : List Server} {rn : List Runner} {r : Runner} :
    r ∈ (gc_apply sv rn).2 ↔ r ∈ rn ∧ r.name ∈ (gha_servers sv).map Server.name := by
  simp only [gc_apply, List.mem_filter, Bool.not_eq_true', decide_eq_false_iff_not,
    mem_gc_deleted_runners]
  constructor
  · rintro ⟨hrn, hnd⟩
    refine ⟨hrn, ?_⟩
    by_contra hn
    exact hnd ⟨hrn, hn⟩
  · rintro ⟨hrn, hmem⟩
    exact ⟨hrn, fun hdel => hdel.2 hmem⟩

/-! ## Effect classifiers and dispatcher lemmas -/

/-- Recognizes the JIT-config request that every `scale_up` call issues
exactly once: the marker of one provisioning attempt. -/
def is_provisioning_request : Effect → Bool
  | .generateJitconfig _ _ _ _ => true
  | _ => false

/-- Recognizes an instance-creation request (`CLOUD.create_server`). -/
def is_create_server : Effect → Bool
  | .createServer _ _ _ _ _ _ => true
  | _ => false

/-- Recognizes an instance-deletion request (`CLOUD.compute.delete_server`). -/
def is_delete_server : Effect → Bool
  | .deleteServer _ => true
  | _ => false

lemma scale_up_jit_error (env : Env) (pool : Pool) (i : Nat) (e : String)
    (h : env.jitconfig (generate_name env i) = .error e) :
    scale_up env pool i =
      ([Effect.log "Scaling up",
        Effect.generateJitconfig env.org (generate_name env i) pool.runner.group
          [pool.runner.label]], .error e) := by
  simp [scale_up, generate_jitconfig_for_organization, h]

lemma countP_provisioning_scale_up (env : Env) (pool : Pool) (i : Nat) :
    (scale_up env pool i).1.countP is_provisioning_request = 1 := by
  simp only [scale_up, generate_jitconfig_for_organization]
  rcases hj : env.jitconfig (generate_name env i) with e | tok
  · simp [is_provisioning_request]
  · rcases hc : env.createServer (generate_name env i) with e | u
    · simp [is_provisioning_request, is_create_server]
    · simp [is_provisioning_request]

lemma countP_create_scale_up (env : Env) (pool : Pool) (i : Nat) (tok : String)
    (hj : env.jitconfig (generate_name env i) = .ok tok) :
    (scale_up env pool i).1.countP is_create_server = 1 := by
  simp only [scale_up, generate_jitconfig_for_organization, hj]
  rcases hc : env.createServer (generate_name env i) with e | u
  · simp [is_create_server]
  · simp [is_create_server]

lemma countP_run_batch (env : Env) (pool : Pool) (n : Nat) (f : Effect → Bool)
    (h : ∀ i, i < n → (scale_up env pool i).1.countP f = 1) :
    (run_batch env pool n).1.countP f = n := by
  simp only [run_batch]
  rw [List.countP_flatten, List.map_map, List.map_map]
  have hmap : (List.range n).map ((List.countP f ∘ Prod.fst) ∘ fun i => scale_up env pool i)
      = (List.range n).map (fun _ => 1) := by
    apply List.map_congr_left
    intro i hi
    exact h i (List.mem_range.mp hi)
  rw [hmap, List.map_const']
  simp

lemma dispatch_queued_eq_find (env : Env) (labels : List String) (ps : List Pool) :
    dispatch_queued env labels ps =
      match ps.find? (fun p => decide (p.runner.label ∈ labels)) with
      | some p => scale_up env p 0
      | none => ([], .ok ()) := by
  induction ps with
  | nil => rfl
  | cons p rest ih =>
    rw [dispatch_queued]
    by_cases h : p.runner.label ∈ labels
    · rw [if_pos h, List.find?_cons_of_pos _ (by simpa using h)]
    · rw [if_neg h, List.find?_cons_of_neg _ (by simpa using h), ih]

lemma on_workflow_job_queued (env : Env) (e : WorkflowJobEvent)
    (horg : e.org = env.org) (hact : e.action = "queued") :
    on_workflow_job env e =
      match env.pools.find? (fun p => decide (p.runner.label ∈ e.labels)) with
      | some p => scale_up env p 0
      | none => ([], .ok ()) := by
  rw [on_workflow_job, if_neg (by simp [horg])]
  simp only [hact, dispatch_queued_eq_find, reduceIte]
  rcases hf : env.pools.find? (fun p => decide (p.runner.label ∈ e.labels)) with _ | p
  · simp [hf]
  · simp only [hf]
    rcases hsc : (scale_up env p 0).2 with e2 | u
    · simp only [hsc]
      exact Prod.ext_iff.mpr ⟨rfl, hsc.symm⟩
    · cases u
      simp only [hsc]
      exact Prod.ext_iff.mpr ⟨rfl, hsc.symm⟩

/-! ## Claims -/

/-- C9: for every registration token, the bootstrap payload built by
`generate_cloud_config_with_jitconfig` contains exactly one file-write
directive, whose content is the startup script with the token substituted
for the fixed marker `___JIT_CONFIG___`, and exactly one run-command
directive, which executes exactly the path written by that file-write
directive. -/
theorem C9_bootstrap_payload (s j : String) :
    (generate_cloud_config_with_jitconfig s j).write_files.length = 1
    ∧ (generate_cloud_config_with_jitconfig s j).write_files.map WriteFile.content
        = [s.replace "___JIT_CONFIG___" j]
    ∧ (generate_cloud_config_with_jitconfig s j).runcmd.length = 1
    ∧ (generate_cloud_config_with_jitconfig s j).runcmd
        = (generate_cloud_config_with_jitconfig s j).write_files.map WriteFile.path :=
  ⟨rfl, rfl, rfl, rfl⟩

/-- C10: `remove_self_hosted_runner` accepts a runner record (whose numeric
id is then used) or an integer id, raises an assertion error on any other
argument, and reports success exactly when the DELETE request answers with
HTTP 204 — any other status yields `ok false`, not an exception. -/
theorem C10_remove_runner (st : Nat → Nat) :
    (∀ r : Runner, remove_self_hosted_runner st (.runner r) = .ok (st r.id == 204))
    ∧ (∀ i : Nat, remove_self_hosted_runner st (.intId i) = .ok (st i == 204))
    ∧ (∀ r : Runner, remove_self_hosted_runner st (.runner r) = .ok true ↔ st r.id = 204)
    ∧ (∀ i : Nat, remove_self_hosted_runner st (.intId i) = .ok true ↔ st i = 204)
    ∧ (∀ descr : String,
        remove_self_hosted_runner st (.other descr) = .error ("AssertionError: " ++ descr)) := by
  refine ⟨fun r => rfl, fun i => rfl, fun r => ?_, fun i => ?_, fun descr => rfl⟩
  · simp [remove_self_hosted_runner]
  · simp [remove_self_hosted_runner]

/-- C4: on snapshots where the reserved-name instances are `{A, B, C}` and
the registered runners are `{B, C, D}` (all reserved-prefix names,
pairwise distinct where it matters), one GC pass deletes exactly instance
`A` and exactly runner `D`, and the post-GC state keeps exactly `B` and
`C` on both sides. -/
theorem C4_gc_example (a b c d : String) (rb rc rd : Runner)
    (ha : has_reserved_name a = true) (hb : has_reserved_name b = true)
    (hc : has_reserved_name c = true) (hd : has_reserved_name d = true)
    (hab : a ≠ b) (hac : a ≠ c) (had : a ≠ d) (hdb : d ≠ b) (hdc : d ≠ c)
    (hrb : rb.name = b) (hrc : rc.name = c) (hrd : rd.name = d) :
    gc_deleted_servers [⟨a⟩, ⟨b⟩, ⟨c⟩] [rb, rc, rd] = [⟨a⟩]
    ∧ gc_deleted_runners [⟨a⟩, ⟨b⟩, ⟨c⟩] [rb, rc, rd] = [rd]
    ∧ gc_apply [⟨a⟩, ⟨b⟩, ⟨c⟩] [rb, rc, rd] = ([⟨b⟩, ⟨c⟩], [rb, rc]) := by
  have hne1 : rb ≠ rd := by
    intro h
    have hnm : rb.name = rd.name := congrArg Runner.name h
    rw [hrb, hrd] at hnm
    exact hdb hnm.symm
  have hne2 : rc ≠ rd := by
    intro h
    have hnm : rc.name = rd.name := congrArg Runner.name h
    rw [hrc, hrd] at hnm
    exact hdc hnm.symm
  have h1 : gc_deleted_servers [⟨a⟩, ⟨b⟩, ⟨c⟩] [rb, rc, rd] = [⟨a⟩] := by
    simp [gc_deleted_servers, gha_servers, List.filter_cons, ha, hb, hc,
      hrb, hrc, hrd, hab, hac, had]
  have h2 : gc_deleted_runners [⟨a⟩, ⟨b⟩, ⟨c⟩] [rb, rc, rd] = [rd] := by
    simp [gc_deleted_runners, gha_servers, List.filter_cons, ha, hb, hc,
      hrb, hrc, hrd, Ne.symm had, hdb, hdc]
  refine ⟨h1, h2, ?_⟩
  simp [gc_apply, h1, h2, List.filter_cons, Ne.symm hab, Ne.symm hac, hne1, hne2]

/-- C5: OrphanGC is idempotent — after applying the deletions of one GC
pass to both inventories (with no intervening external change), a second
pass computes no deletion on either side. -/
theorem C5_gc_idempotent (sv : List Server) (rn : List Runner) :
    gc_deleted_servers (gc_apply sv rn).1 (gc_apply sv rn).2 = []
    ∧ gc_deleted_runners (gc_apply sv rn).1 (gc_apply sv rn).2 = [] := by
  constructor
  · rw [List.eq_nil_iff_forall_not_mem]
    intro s hs
    rw [mem_gc_deleted_servers] at hs
    obtain ⟨hmem, htag, hnot⟩ := hs
    apply hnot
    rw [mem_gc_apply_fst] at hmem
    obtain ⟨hsv, himp⟩ := hmem
    obtain ⟨r, hr, hrname⟩ := List.mem_map.mp (himp htag)
    refine List.mem_map.mpr ⟨r, ?_, hrname⟩
    rw [mem_gc_apply_snd]
    refine ⟨hr, List.mem_map.mpr ⟨s, mem_gha_servers.mpr ⟨hsv, htag⟩, hrname.symm⟩⟩
  · rw [List.eq_nil_iff_forall_not_mem]
    intro r hr
    rw [mem_gc_deleted_runners] at hr
    obtain ⟨hmem, hnot⟩ := hr
    apply hnot
    rw [mem_gc_apply_snd] at hmem
    obtain ⟨hrn, hname⟩ := hmem
    obtain ⟨s, hs, hsname⟩ := List.mem_map.mp hname
    rw [mem_gha_servers] at hs
    obtain ⟨hsv, htag⟩ := hs
    refine List.mem_map.mpr ⟨s, mem_gha_servers.mpr ⟨?_, htag⟩, hsname⟩
    rw [mem_gc_apply_fst]
    exact ⟨hsv, fun _ => List.mem_map.mpr ⟨r, hrn, hsname.symm⟩⟩

/-- C6: for every `queued` event for the configured organization, the
dispatcher selects the first configured pool whose label is in the job's
label set, runs exactly one ad hoc `scale_up` (one provisioning request)
for it and scans no further pools — the handler's whole behaviour is that
single `scale_up`; when no pool's label matches, zero provisioning
requests are made and the handler is a silent no-op. -/
theorem C6_queued_first_match (env : Env) (e : WorkflowJobEvent)
    (horg : e.org = env.org) (hact : e.action = "queued") :
    (∀ p, env.pools.find? (fun q => decide (q.runner.label ∈ e.labels)) = some p →
        on_workflow_job env e = scale_up env p 0
        ∧ (on_workflow_job env e).1.countP is_provisioning_request = 1)
    ∧ (env.pools.find? (fun q => decide (q.runner.label ∈ e.labels)) = none →
        on_workflow_job env e = ([], Except.ok ())) := by
  have hq := on_workflow_job_queued env e horg hact
  constructor
  · intro p hp
    simp only [hp] at hq
    exact ⟨hq, by rw [hq]; exact countP_provisioning_scale_up env p 0⟩
  · intro hnone
    simp only [hnone] at hq
    exact hq

/-- C7: if the registration-token (JIT config) request fails, `scale_up`
aborts with that error before requesting instance creation: its trace is
exactly the entry log plus the token request and contains no
create-server call. -/
theorem C7_token_failure_aborts (env : Env) (pool : Pool) (i : Nat) (e : String)
    (h : env.jitconfig (generate_name env i) = .error e) :
    (scale_up env pool i).2 = .error e
    ∧ (scale_up env pool i).1.countP is_create_server = 0
    ∧ (scale_up env pool i).1 = [Effect.log "Scaling up",
        Effect.generateJitconfig env.org (generate_name env i) pool.runner.group
          [pool.runner.label]] := by
  rw [scale_up_jit_error env pool i e h]
  refine ⟨rfl, ?_, rfl⟩
  simp [is_create_server]

/-- C2 amended: for a `queued` event matching a configured pool, the
provisioning is NOT asynchronous — `on_workflow_job` runs `scale_up`
inline, so the handler's entire behaviour (trace and outcome, including
the blocking `create_server(wait=True, timeout=300)` call) is that of
`scale_up`, and the event is acknowledged only after instance creation
finishes or fails. -/
theorem C2_sync_provisioning (env : Env) (e : WorkflowJobEvent) (p : Pool)
    (horg : e.org = env.org) (hact : e.action = "queued")
    (hp : env.pools.find? (fun q => decide (q.runner.label ∈ e.labels)) = some p) :
    on_workflow_job env e = scale_up env p 0 := by
  have hq := on_workflow_job_queued env e horg hact
  simp only [hp] at hq
  exact hq

/-- C3 amended: on a `completed` event for the configured organization the
handler logs and issues exactly one delete-server call keyed on the
event's `runner_name`, irrespective of pool membership (no pool is
consulted); but the deletion is not best-effort: the handler's outcome
mirrors the delete call's outcome, so a failing delete call fails the
event handler (the log line precedes the call and records the attempt,
not a failure). -/
theorem C3_completed_delete (env : Env) (e : WorkflowJobEvent)
    (horg : e.org = env.org) (hact : e.action = "completed") :
    (on_workflow_job env e).1 =
      [Effect.log ("Deleting runner " ++ e.runner_name), Effect.deleteServer e.runner_name]
    ∧ (on_workflow_job env e).1.countP is_delete_server = 1
    ∧ (∀ err, env.deleteServer e.runner_name = .error err →
        (on_workflow_job env e).2 = .error err)
    ∧ (env.deleteServer e.runner_name = .ok () → (on_workflow_job env e).2 = .ok ()) := by
  have hbody : on_workflow_job env e =
      (match env.deleteServer e.runner_name with
       | .error err => ([Effect.log ("Deleting runner " ++ e.runner_name),
                         Effect.deleteServer e.runner_name], .error err)
       | .ok _ => ([Effect.log ("Deleting runner " ++ e.runner_name),
                    Effect.deleteServer e.runner_name], .ok ())) := by
    rw [on_workflow_job, if_neg (by simp [horg])]
    simp only [hact, reduceIte]
    rcases hdel : env.deleteServer e.runner_name with err | u
    · simp [hdel]
    · cases u
      simp [hdel]
  rcases hdel : env.deleteServer e.runner_name with err | u
  · simp only [hdel] at hbody
    rw [hbody]
    refine ⟨rfl, by simp [is_delete_server], ?_, ?_⟩
    · intro err2 h2
      exact h2
    · intro h2
      exact absurd h2 (by simp)
  · cases u
    simp only [hdel] at hbody
    rw [hbody]
    refine ⟨rfl, by simp [is_delete_server], ?_, fun _ => rfl⟩
    intro err2 h2
    exact absurd h2 (by simp)

/-! ## Concrete fixtures for witnesses and counterexamples -/

/-- A small pool configuration. -/
def poolSmall : Pool := ⟨⟨"small", 1⟩, ⟨"img", "flv", "net", none⟩, 1⟩

/-- A second pool configuration, later in configured order. -/
def poolLarge : Pool := ⟨⟨"large", 2⟩, ⟨"img2", "flv2", "net2", some "key"⟩, 2⟩

/-- An environment in which every external call succeeds. -/
def envOk : Env :=
  { org := "acme", pools := [poolSmall, poolLarge],
    runners := [], servers := [],
    startScript := "run ___JIT_CONFIG___",
    suffix := fun _ => "aaaaa",
    jitconfig := fun _ => .ok "TOKEN",
    createServer := fun _ => .ok (),
    deleteServer := fun _ => .ok (),
    removeRunner := fun _ => .ok () }

/-- Like `envOk` but every JIT-config request fails with an HTTP error. -/
def envJitFail : Env := { envOk with jitconfig := fun _ => .error "HTTPError 500" }

/-- Like `envOk` but every delete-server request fails. -/
def envDeleteFail : Env := { envOk with deleteServer := fun _ => .error "SDKError" }

/-- A queued event whose label set matches both configured pools. -/
def evQueuedBoth : WorkflowJobEvent := ⟨"acme", "queued", ["large", "small"], ""⟩

/-- A queued event whose label set matches no configured pool. -/
def evQueuedNone : WorkflowJobEvent := ⟨"acme", "queued", ["huge"], ""⟩

/-- A completed event carrying a runner name. -/
def evCompleted : WorkflowJobEvent := ⟨"acme", "completed", ["small"], "gha-abcde"⟩

/-- Witness for C6: with pools `[small, large]` in configured order and a
job labelled with both, the first pool wins and exactly one provisioning
request is made; an unmatched label is a no-op. -/
theorem C6_witness :
    on_workflow_job envOk evQueuedBoth = scale_up envOk poolSmall 0
    ∧ (on_workflow_job envOk evQueuedBoth).1.countP is_provisioning_request = 1
    ∧ on_workflow_job envOk evQueuedNone = ([], Except.ok ()) := by
  have h1 := (C6_queued_first_match envOk evQueuedBoth rfl rfl).1 poolSmall rfl
  have h2 := (C6_queued_first_match envOk evQueuedNone rfl rfl).2 rfl
  exact ⟨h1.1, h1.2, h2⟩

/-- Witness for C7 at a concrete failing environment. -/
theorem C7_witness :
    (scale_up envJitFail poolSmall 0).2 = Except.error "HTTPError 500"
    ∧ (scale_up envJitFail poolSmall 0).1.countP is_create_server = 0 := by
  have h := C7_token_failure_aborts envJitFail poolSmall 0 "HTTPError 500" rfl
  exact ⟨h.1, h.2.1⟩

/-- C2 counterexample: on a concrete matched `queued` event the handler's
own trace contains the instance-creation call (one create-server effect,
not zero), so the event-receipt path does block for the duration of
instance creation — provisioning does not run asynchronously relative to
it. -/
theorem C2_counterexample :
    (on_workflow_job envOk evQueuedBoth).1.countP is_create_server = 1 := by
  rfl

/-- Witness for C2 (amended) at a concrete environment. -/
theorem C2_witness : on_workflow_job envOk evQueuedBoth = scale_up envOk poolSmall 0 :=
  C2_sync_provisioning envOk evQueuedBoth poolSmall rfl rfl rfl

/-- C3 counterexample: with a failing delete-server call, the `completed`
handler itself fails (the exception propagates out of `on_workflow_job`),
refuting the best-effort part of the claim. -/
theorem C3_counterexample :
    (on_workflow_job envDeleteFail evCompleted).2 = Except.error "SDKError" := by
  rfl

/-- Witness for C3 (amended) at a concrete environment. -/
theorem C3_witness :
    (on_workflow_job envOk evCompleted).1 =
      [Effect.log ("Deleting runner " ++ "gha-abcde"), Effect.deleteServer "gha-abcde"]
    ∧ (on_workflow_job envOk evCompleted).1.countP is_delete_server = 1 := by
  have h := C3_completed_delete envOk evCompleted rfl rfl
  exact ⟨h.1, h.2.1⟩

/-- Witness for C4 at concrete snapshots. -/
theorem C4_gc_example_witness :
    gc_deleted_servers [⟨"gha-a"⟩, ⟨"gha-b"⟩, ⟨"gha-c"⟩]
        [⟨2, "gha-b", false, []⟩, ⟨3, "gha-c", true, []⟩, ⟨4, "gha-d", false, []⟩]
      = [⟨"gha-a"⟩]
    ∧ gc_deleted_runners [⟨"gha-a"⟩, ⟨"gha-b"⟩, ⟨"gha-c"⟩]
        [⟨2, "gha-b", false, []⟩, ⟨3, "gha-c", true, []⟩, ⟨4, "gha-d", false, []⟩]
      = [⟨4, "gha-d", false, []⟩]
    ∧ gc_apply [⟨"gha-a"⟩, ⟨"gha-b"⟩, ⟨"gha-c"⟩]
        [⟨2, "gha-b", false, []⟩, ⟨3, "gha-c", true, []⟩, ⟨4, "gha-d", false, []⟩]
      = ([⟨"gha-b"⟩, ⟨"gha-c"⟩], [⟨2, "gha-b", false, []⟩, ⟨3, "gha-c", true, []⟩]) :=
  C4_gc_example "gha-a" "gha-b" "gha-c" "gha-d"
    ⟨2, "gha-b", false, []⟩ ⟨3, "gha-c", true, []⟩ ⟨4, "gha-d", false, []⟩
    (by decide) (by decide) (by decide) (by decide)
    (by decide) (by decide) (by decide) (by decide) (by decide)
    rfl rfl rfl

/-! ## Reconciliation-tick lemmas -/

lemma run_pools_error_cons (env : Env) (p : Pool) (rest : List Pool) (e : String)
    (h : (maintain_min_ready_for_pool env p).2 = .error e) :
    run_pools env (p :: rest) = ((maintain_min_ready_for_pool env p).1, .error e) := by
  rw [run_pools]
  simp only [h]

lemma run_pools_ok_cons (env : Env) (p : Pool) (rest : List Pool)
    (h : (maintain_min_ready_for_pool env p).2 = .ok ()) :
    run_pools env (p :: rest) =
      ((maintain_min_ready_for_pool env p).1 ++ (run_pools env rest).1,
       (run_pools env rest).2) := by
  rw [run_pools]
  simp only [h]

lemma run_pools_append_ok (env : Env) (pre : List Pool) (ps : List Pool)
    (hpre : (run_pools env pre).2 = .ok ()) :
    run_pools env (pre ++ ps) =
      ((run_pools env pre).1 ++ (run_pools env ps).1, (run_pools env ps).2) := by
  induction pre with
  | nil => simp [run_pools]
  | cons q qs ih =>
    rcases hq : (maintain_min_ready_for_pool env q).2 with e2 | u
    · exfalso
      rw [run_pools_error_cons env q qs e2 hq] at hpre
      simp at hpre
    · cases u
      have hpre2 : (run_pools env qs).2 = .ok () := by
        rw [run_pools_ok_cons env q qs hq] at hpre
        exact hpre
      rw [List.cons_append, run_pools_ok_cons env q (qs ++ ps) hq,
        run_pools_ok_cons env q qs hq, ih hpre2]
      simp [List.append_assoc]

lemma scale_up_infix_run_batch (env : Env) (pool : Pool) (n : Nat) (i : Nat) (h : i < n) :
    (scale_up env pool i).1 <:+: (run_batch env pool n).1 := by
  simp only [run_batch]
  apply List.infix_of_mem_flatten
  simp only [List.map_map]
  exact List.mem_map.mpr ⟨i, List.mem_range.mpr h, rfl⟩

lemma exec_invariant (w n : Nat) (s : ExecState) (h : ExecReachable w n s) :
    s.running ≤ w ∧ s.pending + s.running + s.done = n := by
  induction h with
  | refl => simp
  | tail hreach hstep ih =>
    obtain ⟨ih1, ih2⟩ := ih
    cases hstep with
    | start p r d hlt =>
      simp only at ih1 ih2 ⊢
      omega
    | finish p r d =>
      simp only at ih1 ih2 ⊢
      omega

/-! ## Remaining claims -/

/-- A pool demanding ten ready runners. -/
def poolTen : Pool := ⟨⟨"ten", 3⟩, ⟨"i", "f", "n", none⟩, 10⟩

/-- An all-success environment whose only pool is `poolTen` and that has no
registered runners, so the pool's deficit is 10. -/
def envTen : Env := { envOk with pools := [poolTen] }

/-- An environment with two pools with positive deficit, every JIT-config
request failing, and one orphaned reserved-name server that a GC pass
would delete. -/
def envTickFail : Env :=
  { envOk with
    jitconfig := fun _ => .error "HTTPError 500",
    servers := [⟨"gha-orphan"⟩] }

/-- C1 amended: when a provisioning task of a pool's batch raises, the
sibling tasks of that batch are not cancelled — every task of the batch
still runs and its effects stay in the pool's trace — but the tick IS
aborted: `maintain_min_ready` ends with the pools processed so far and
the propagated first error, so the pools after the failing one are not
processed and the GC pass does not run in that tick, and the error is
raised rather than aggregated. -/
theorem C1_failure_aborts_tick (env : Env) (pre : List Pool) (p : Pool) (rest : List Pool)
    (e : String)
    (hpools : env.pools = pre ++ p :: rest)
    (hpre : (run_pools env pre).2 = .ok ())
    (herr : (maintain_min_ready_for_pool env p).2 = .error e) :
    maintain_min_ready env
      = ((run_pools env pre).1 ++ (maintain_min_ready_for_pool env p).1, .error e)
    ∧ ∀ i, i < (p.min_ready -
          (idle_runners_of (get_runners_by_label env.runners p.runner.label)).length).toNat →
        (scale_up env p i).1 <:+: (maintain_min_ready_for_pool env p).1 := by
  constructor
  · have h1 := run_pools_append_ok env pre (p :: rest) hpre
    have h2 := run_pools_error_cons env p rest e herr
    rw [maintain_min_ready, hpools, h1, h2]
  · intro i hi
    have hdef : 0 < p.min_ready -
        (idle_runners_of (get_runners_by_label env.runners p.runner.label)).length := by
      rcases lt_or_ge 0 (p.min_ready -
          (idle_runners_of (get_runners_by_label env.runners p.runner.label)).length) with h | h
      · exact h
      · exfalso
        rw [Int.toNat_eq_zero.mpr h] at hi
        omega
    simp only [maintain_min_ready_for_pool, if_pos hdef]
    refine (scale_up_infix_run_batch env p _ i hi).trans ?_
    exact (List.suffix_append [Effect.log (p.runner.label ++ ": Found "
      ++ toString (get_runners_by_label env.runners p.runner.label).length ++ " runners, "
      ++ toString (idle_runners_of (get_runners_by_label env.runners p.runner.label)).length
      ++ " idle runners, min_ready=" ++ toString p.min_ready),
      Effect.log ("Scaling up " ++ toString (p.min_ready -
        (idle_runners_of (get_runners_by_label env.runners p.runner.label)).length)
        ++ " nodes")] _).isInfix

/-- C1 counterexample: in `envTickFail` the single task of the first
pool's batch fails; the tick returns that error, only one provisioning
request was ever issued (the second pool, whose deficit is 2, was never
processed) and no delete-server call was made (the GC pass, which would
have deleted the orphan server `gha-orphan`, never ran).  This refutes
"every remaining configured pool is still processed and the global
OrphanGC pass still runs in that same tick, with per-task errors
aggregated". -/
theorem C1_counterexample :
    (maintain_min_ready envTickFail).2 = Except.error "HTTPError 500"
    ∧ (maintain_min_ready envTickFail).1.countP is_provisioning_request = 1
    ∧ (maintain_min_ready envTickFail).1.countP is_delete_server = 0 :=
  ⟨rfl, rfl, rfl⟩

/-- Witness for C1 (amended) at `envTickFail`: the first pool fails, the
tick ends there, and the failing batch's task trace is still contained in
the pool's trace. -/
theorem C1_witness :
    maintain_min_ready envTickFail
      = ((run_pools envTickFail []).1
          ++ (maintain_min_ready_for_pool envTickFail poolSmall).1,
         Except.error "HTTPError 500")
    ∧ (scale_up envTickFail poolSmall 0).1
        <:+: (maintain_min_ready_for_pool envTickFail poolSmall).1 := by
  have h := C1_failure_aborts_tick envTickFail [] poolSmall [poolLarge] "HTTPError 500"
    rfl rfl rfl
  exact ⟨h.1, h.2 0 (by decide)⟩

/-- C8: per tick and pool, the deficit is `min_ready` minus the number of
label-carrying runners with `busy = false`; when it is positive the batch
submits exactly `deficit` provisioning tasks (and, when every token
request succeeds, issues exactly `deficit` create-server calls, the batch
trace being joined before the tick moves on); when it is ≤ 0 no task is
submitted.  The batch runs on a `ThreadPoolExecutor` bounded by
`MAX_WORKERS = 4`: in every reachable executor state at most `MAX_WORKERS`
tasks are in flight, and a drained executor state has completed all `n`
submitted tasks. -/
theorem C8_deficit_batch (env : Env) (pool : Pool) :
    (0 < pool.min_ready -
        (idle_runners_of (get_runners_by_label env.runners pool.runner.label)).length →
      (maintain_min_ready_for_pool env pool).1.countP is_provisioning_request
        = (pool.min_ready -
            (idle_runners_of (get_runners_by_label env.runners pool.runner.label)).length).toNat)
    ∧ (pool.min_ready -
          (idle_runners_of (get_runners_by_label env.runners pool.runner.label)).length ≤ 0 →
      (maintain_min_ready_for_pool env pool).1.countP is_provisioning_request = 0)
    ∧ ((∀ s, ∃ tok, env.jitconfig s = Except.ok tok) →
      0 < pool.min_ready -
          (idle_runners_of (get_runners_by_label env.runners pool.runner.label)).length →
      (maintain_min_ready_for_pool env pool).1.countP is_create_server
        = (pool.min_ready -
            (idle_runners_of (get_runners_by_label env.runners pool.runner.label)).length).toNat)
    ∧ (∀ n s, ExecReachable MAX_WORKERS n s →
        s.running ≤ MAX_WORKERS ∧ s.pending + s.running + s.done = n)
    ∧ (∀ n s, ExecReachable MAX_WORKERS n s → s.pending = 0 → s.running = 0 →
        s.done = n) := by
  refine ⟨?_, ?_, ?_, fun n s h => exec_invariant MAX_WORKERS n s h, ?_⟩
  · intro hdef
    simp only [maintain_min_ready_for_pool, if_pos hdef]
    simp only [List.countP_cons, is_provisioning_request]
    rw [countP_run_batch env pool _ is_provisioning_request
      (fun i _ => countP_provisioning_scale_up env pool i)]
    simp
  · intro hdef
    simp only [maintain_min_ready_for_pool, if_neg (not_lt.mpr hdef)]
    simp [is_provisioning_request]
  · intro hjit hdef
    simp only [maintain_min_ready_for_pool, if_pos hdef]
    simp only [List.countP_cons, is_create_server]
    rw [countP_run_batch env pool _ is_create_server (fun i _ => by
      obtain ⟨tok, htok⟩ := hjit (generate_name env i)
      exact countP_create_scale_up env pool i tok htok)]
    simp
  · intro n s h hp hr
    have := exec_invariant MAX_WORKERS n s h
    omega

/-- Witness for C8: a pool with `min_ready = 10` and no idle runner yields
exactly 10 provisioning tasks and 10 create-server calls; the executor
bound holds at a concrete reachable state with 4 tasks in flight, and a
concrete drained run has completed its whole batch. -/
theorem C8_witness :
    (maintain_min_ready_for_pool envTen poolTen).1.countP is_provisioning_request = 10
    ∧ (maintain_min_ready_for_pool envTen poolTen).1.countP is_create_server = 10
    ∧ (ExecState.running ⟨6, 4, 0⟩ ≤ MAX_WORKERS ∧ 6 + 4 + 0 = 10)
    ∧ ExecState.done ⟨0, 0, 1⟩ = 1 := by
  have h := C8_deficit_batch envTen poolTen
  have hreach : ExecReachable MAX_WORKERS 10 ⟨6, 4, 0⟩ :=
    .tail (.tail (.tail (.tail .refl (.start 9 0 0 (by decide)))
      (.start 8 1 0 (by decide))) (.start 7 2 0 (by decide))) (.start 6 3 0 (by decide))
  have hterm : ExecReachable MAX_WORKERS 1 ⟨0, 0, 1⟩ :=
    .tail (.tail .refl (.start 0 0 0 (by decide))) (.finish 0 0 0)
  refine ⟨?_, ?_, ?_, ?_⟩
  · exact (h.1 (by decide)).trans (by decide)
  · exact (h.2.2.1 (fun s => ⟨"TOKEN", rfl⟩) (by decide)).trans (by decide)
  · exact h.2.2.2.1 10 ⟨6, 4, 0⟩ hreach
  · exact h.2.2.2.2 1 ⟨0, 0, 1⟩ hterm rfl rfl

end GhaOpenstack
